import Mathlib

/-!
Verification development for the hexo-goose-builder change-classification and
debounced-compilation orchestrator.

Shallow embedding of:
- the glob subset of `minimatch` that the strategy configuration uses
  (literal segments, `*`, `?`, and the `**` globstar, with the default
  `dot:false` behaviour where a leading wildcard does not match a leading dot);
- `ServerModeHandler.getCompileStrategyConfig`, `matchesPatterns`,
  `determineCompileStrategy`, `handleFileChange` and the `before_generate`
  filter (src/lib/server-mode-handler.js);
- `ThemeBuilder.compileAssets`, `compileCSSOnly`, `compileJSOnly` and
  `clearCompileCache` (the plugin entry file).

File paths are represented by the two relativisations the source computes with
`path.relative`: the path relative to the theme directory and the path relative
to the hexo base directory, both with the host separators kept as they arrive
(the code normalises backslashes itself where it does so).

The CSS pipeline (`tailwindCompiler.compile`) and the JS pipeline
(`jsBundler.bundle`) are external collaborators; each invocation is modelled by
its outcome: `Except` captures a thrown error, the `ok` payload captures the
resolved value (`Option String` for the CSS output path that may be `null`,
`Bool` for the truthiness of the bundle result).
-/

namespace GooseBuilder

/-! ### Character-level glob matching (one path segment, no `/` inside) -/

/-- Match one glob segment against one path segment, character by character:
`*` matches any (possibly empty) run of characters (equivalently, the rest of
the pattern matches some suffix of the remaining characters), `?` matches
exactly one character, anything else matches itself. Recursion is structural
on the pattern so that concrete instances reduce. -/
def segMatch : List Char → List Char → Bool
  | [], cs => cs.isEmpty
  | '*' :: ps, cs => cs.tails.any (fun t => segMatch ps t)
  | '?' :: ps, cs =>
    match cs with
    | [] => false
    | _ :: cs' => segMatch ps cs'
  | p :: ps, cs =>
    match cs with
    | [] => false
    | c :: cs' => (p == c) && segMatch ps cs'

/-- Encodes `minimatch`'s default `dot:false` rule: a segment pattern that starts with
a wildcard does not match a path segment that starts with a dot. -/
def segMatchDot (p s : List Char) : Bool :=
  match p, s with
  | pc :: _, sc :: _ =>
    if sc == '.' && (pc == '*' || pc == '?') then false else segMatch p s
  | _, _ => segMatch p s

/-- The suffixes of a segment list reachable from the front by skipping zero
or more segments that do not start with a dot: exactly the positions a `**`
globstar may resume matching at under `dot:false`. -/
def dotFreeTails : List (List Char) → List (List (List Char))
  | [] => [[]]
  | s :: ss =>
    (s :: ss) :: (if s.headD ' ' == '.' then [] else dotFreeTails ss)

/-- Globstar matching over segment lists: a `**` segment matches zero or more
whole path segments (none of them starting with a dot, per `dot:false`); any
other pattern segment must match exactly one path segment. -/
def globSegs : List (List Char) → List (List Char) → Bool
  | [], ss => ss.isEmpty
  | p :: ps, ss =>
    if p == ['*', '*'] then
      (dotFreeTails ss).any (fun t => globSegs ps t)
    else
      match ss with
      | [] => false
      | s :: ss' => segMatchDot p s && globSegs ps ss'

/-- Split a character list on `/`, like `minimatch` splits patterns and paths. -/
def splitSlash : List Char → List (List Char)
  | [] => [[]]
  | c :: rest =>
    if c == '/' then [] :: splitSlash rest
    else
      match splitSlash rest with
      | [] => [[c]]
      | seg :: segs => (c :: seg) :: segs

/-- The library call `minimatch(pathStr, pattern)` restricted to the glob subset the
configuration uses (literals, `*`, `?`, `**`). Argument order follows the
library call sites in the source. -/
def minimatchFn (pathStr pattern : String) : Bool :=
  globSegs (splitSlash pattern.data) (splitSlash pathStr.data)

/-- JS `String.prototype.replace(/\\/g, '/')`, the Windows-separator
normalisation the handler applies before matching. -/
def normalizeSlashes (s : String) : String :=
  String.mk (s.data.map (fun c => if c == '\\' then '/' else c))

/-- JS `String.prototype.includes`: `isPrefixChars n h` is true when `n` is a
prefix of `h`. -/
def isPrefixChars : List Char → List Char → Bool
  | [], _ => true
  | _ :: _, [] => false
  | n :: ns, h :: hs => (n == h) && isPrefixChars ns hs

/-- Scan a haystack for a needle occurring at any position. -/
def containsAux (ns : List Char) : List Char → Bool
  | [] => isPrefixChars ns []
  | h :: hs => isPrefixChars ns (h :: hs) || containsAux ns hs

/-- JS `hay.includes(needle)`. -/
def containsSub (hay needle : String) : Bool :=
  containsAux needle.data hay.data

/-- True when `needle` occurs at the end of the string (JS `endsWith`). -/
def isSuffixChars (suf cs : List Char) : Bool :=
  isPrefixChars suf.reverse cs.reverse

/-! ### Strategy configuration and resolution -/

/-- The compile strategies of `COMPILE_STRATEGIES`. -/
inductive CompileStrategy
  | full
  | css_only
  | js_only
  | skip
deriving DecidableEq, Repr

/-- The four pattern lists of a merged strategy configuration. -/
structure StrategyConfig where
  css_only : List String
  js_only : List String
  full_compile : List String
  ignore : List String
deriving DecidableEq, Repr

/-- The built-in `defaultConfig` of `getCompileStrategyConfig`. -/
def defaultStrategyConfig : StrategyConfig where
  js_only := ["layout/components/**/*.js", "layout/components/**/*.ejs"]
  css_only := ["layout/*.ejs", "layout/styles/**/*.ejs",
               "layout/_partial*/**/*.ejs", "layout/tailwind.css",
               "layout/**/*.css"]
  full_compile := ["_config.yml"]
  ignore := ["source/css/components.*", "source/css/component.*",
             "source/js/components.*", "**/.git/**", "**/node_modules/**",
             "**/*.manifest.json"]

/-- The parts of `hexo.config.theme_builder` the handler reads:
`compile_strategy` overrides, the legacy `watch` list, and the user `ignore`
list used by `handleFileChange`. -/
structure ThemeBuilderConfig where
  compile_strategy : StrategyConfig
  watch : List String
  ignore : List String
deriving DecidableEq, Repr

/-- Embeds `getCompileStrategyConfig`: user patterns are appended to the defaults. -/
def getCompileStrategyConfig (cfg : ThemeBuilderConfig) : StrategyConfig where
  css_only := defaultStrategyConfig.css_only ++ cfg.compile_strategy.css_only
  js_only := defaultStrategyConfig.js_only ++ cfg.compile_strategy.js_only
  full_compile :=
    defaultStrategyConfig.full_compile ++ cfg.compile_strategy.full_compile
  ignore := defaultStrategyConfig.ignore ++ cfg.compile_strategy.ignore

/-- A changed file, represented by the two relativisations the source
computes: `path.relative(theme_dir, filePath)` and
`path.relative(base_dir, filePath)`. -/
structure ThemePath where
  relToTheme : String
  relToHexo : String
deriving DecidableEq, Repr

/-- Embeds `matchesPatterns(filePath, patterns)`: normalise the theme-relative path
and test it against every pattern. -/
def matchesPatterns (p : ThemePath) (patterns : List String) : Bool :=
  patterns.any (fun pattern => minimatchFn (normalizeSlashes p.relToTheme) pattern)

/-- Embeds `determineCompileStrategy(filePath)`: ignore list first, then the two
root-level special files, then js-only, full-compile, css-only patterns, the
legacy user watch list, and finally skip. -/
def determineCompileStrategy (cfg : ThemeBuilderConfig) (p : ThemePath) :
    CompileStrategy :=
  let strategyConfig := getCompileStrategyConfig cfg
  if matchesPatterns p strategyConfig.ignore then CompileStrategy.skip
  else if normalizeSlashes p.relToHexo = "tailwind.config.js" then
    CompileStrategy.css_only
  else if normalizeSlashes p.relToHexo = "_config.yml" then
    CompileStrategy.full
  else if matchesPatterns p strategyConfig.js_only then CompileStrategy.js_only
  else if matchesPatterns p strategyConfig.full_compile then CompileStrategy.full
  else if matchesPatterns p strategyConfig.css_only then CompileStrategy.css_only
  else if cfg.watch.any (fun pattern => minimatchFn p.relToTheme pattern) then
    CompileStrategy.full
  else CompileStrategy.skip

/-! ### ThemeBuilder compile state and the three compile entry points -/

/-- The mutable compile flags of `ThemeBuilder`: `hasCompiled`, `isCompiling`
and the builder's own `compileDebounceTimer` field (the one
`clearCompileCache` clears). -/
structure BuilderState where
  hasCompiled : Bool
  isCompiling : Bool
  builderDebounceTimer : Bool
deriving DecidableEq, Repr

/-- One external pipeline invocation, as recorded in a call trace. -/
inductive PipelineCall
  | cssCompile
  | jsBundle
deriving DecidableEq, Repr

/-- The behaviour of the external collaborators during one compile attempt:
whether the theme directory exists, what `tailwindCompiler.compile` does
(throw, or resolve to an output path or `null`), and what `jsBundler.bundle`
does (throw, or resolve to a truthy or falsy value). -/
structure PipelineEnv where
  themeDirExists : Bool
  cssResult : Except String (Option String)
  jsResult : Except String Bool
deriving Repr

/-- What one call to a compile entry point did: which pipelines it invoked, in
order; its returned value or thrown error; and the builder state it left
behind. -/
structure CompileOutcome where
  calls : List PipelineCall
  result : Except String Bool
  state : BuilderState
deriving Repr

/-- The body of `compileAssets` past the re-entrancy guard (entered with
`isCompiling` already set; the `finally` clears it on every exit path):
theme-directory check, CSS pipeline, and — only when CSS resolved to a path —
the JS pipeline. A CSS `null` and a falsy JS bundle are logged warnings and
the call still returns `true` with `hasCompiled := true`; a thrown error is
caught, sets `hasCompiled := false` and is rethrown. -/
def compileAssetsBody (s : BuilderState) (env : PipelineEnv) : CompileOutcome :=
  if env.themeDirExists = false then
    { calls := [], result := Except.error "theme directory does not exist",
      state := { s with hasCompiled := false, isCompiling := false } }
  else
    match env.cssResult with
    | Except.error e =>
      { calls := [PipelineCall.cssCompile], result := Except.error e,
        state := { s with hasCompiled := false, isCompiling := false } }
    | Except.ok none =>
      { calls := [PipelineCall.cssCompile], result := Except.ok true,
        state := { s with hasCompiled := true, isCompiling := false } }
    | Except.ok (some _) =>
      match env.jsResult with
      | Except.error e =>
        { calls := [PipelineCall.cssCompile, PipelineCall.jsBundle],
          result := Except.error e,
          state := { s with hasCompiled := false, isCompiling := false } }
      | Except.ok _ =>
        { calls := [PipelineCall.cssCompile, PipelineCall.jsBundle],
          result := Except.ok true,
          state := { s with hasCompiled := true, isCompiling := false } }

/-- Embeds `compileAssets`. The guard at the top: when a compile is already in
flight, the caller loops awaiting `isCompiling = false` and then returns the
shared `hasCompiled`; `inFlightFinal` is the builder state at the moment that
in-flight run finishes (the waiter itself mutates nothing and invokes no
pipeline). -/
def compileAssets (s : BuilderState) (env : PipelineEnv)
    (inFlightFinal : BuilderState) : CompileOutcome :=
  if s.isCompiling = true then
    { calls := [], result := Except.ok inFlightFinal.hasCompiled,
      state := inFlightFinal }
  else compileAssetsBody { s with isCompiling := true } env

/-- The body of `compileCSSOnly` past the re-entrancy guard. A CSS `null`
returns `false` leaving `hasCompiled` untouched; a resolved path sets
`hasCompiled := true`; a thrown error is rethrown without touching
`hasCompiled` (only `compileAssets` resets it in its catch). -/
def compileCSSOnlyBody (s : BuilderState) (env : PipelineEnv) : CompileOutcome :=
  if env.themeDirExists = false then
    { calls := [], result := Except.error "theme directory does not exist",
      state := { s with isCompiling := false } }
  else
    match env.cssResult with
    | Except.error e =>
      { calls := [PipelineCall.cssCompile], result := Except.error e,
        state := { s with isCompiling := false } }
    | Except.ok none =>
      { calls := [PipelineCall.cssCompile], result := Except.ok false,
        state := { s with isCompiling := false } }
    | Except.ok (some _) =>
      { calls := [PipelineCall.cssCompile], result := Except.ok true,
        state := { s with hasCompiled := true, isCompiling := false } }

/-- Embeds `compileCSSOnly`, with the same re-entrancy guard as `compileAssets`. -/
def compileCSSOnly (s : BuilderState) (env : PipelineEnv)
    (inFlightFinal : BuilderState) : CompileOutcome :=
  if s.isCompiling = true then
    { calls := [], result := Except.ok inFlightFinal.hasCompiled,
      state := inFlightFinal }
  else compileCSSOnlyBody { s with isCompiling := true } env

/-- The body of `compileJSOnly` past the re-entrancy guard, mirroring
`compileCSSOnlyBody` with the JS bundler. -/
def compileJSOnlyBody (s : BuilderState) (env : PipelineEnv) : CompileOutcome :=
  if env.themeDirExists = false then
    { calls := [], result := Except.error "theme directory does not exist",
      state := { s with isCompiling := false } }
  else
    match env.jsResult with
    | Except.error e =>
      { calls := [PipelineCall.jsBundle], result := Except.error e,
        state := { s with isCompiling := false } }
    | Except.ok false =>
      { calls := [PipelineCall.jsBundle], result := Except.ok false,
        state := { s with isCompiling := false } }
    | Except.ok true =>
      { calls := [PipelineCall.jsBundle], result := Except.ok true,
        state := { s with hasCompiled := true, isCompiling := false } }

/-- Embeds `compileJSOnly`, with the same re-entrancy guard as `compileAssets`. -/
def compileJSOnly (s : BuilderState) (env : PipelineEnv)
    (inFlightFinal : BuilderState) : CompileOutcome :=
  if s.isCompiling = true then
    { calls := [], result := Except.ok inFlightFinal.hasCompiled,
      state := inFlightFinal }
  else compileJSOnlyBody { s with isCompiling := true } env

/-! ### clearCompileCache -/

/-- The emitted artefacts on disk: the file names in the theme's
`source/css` and `source/js` directories. -/
structure FsState where
  cssFiles : List String
  jsFiles : List String
deriving DecidableEq, Repr

/-- The `{cssOnly, jsOnly}` options of `clearCompileCache`. -/
structure ClearOptions where
  cssOnly : Bool
  jsOnly : Bool
deriving DecidableEq, Repr

/-- True when `c` is a lowercase hex digit, as in the character class `[a-f0-9]`. -/
def isLowerHexDigit (c : Char) : Bool :=
  c.isDigit || ('a' ≤ c && c ≤ 'f')

/-- True when `c` is a lowercase letter or digit, as in the character class `[a-z0-9]`. -/
def isLowerAlnum (c : Char) : Bool :=
  c.isDigit || ('a' ≤ c && c ≤ 'z')

/-- True when `f` is exactly `pre`, then `hashLen` characters all satisfying `hashOk`,
then `suf` — the shape of the anchored regexes
`^pre[class]{hashLen}suf$` used for the compiled artefact names. -/
def matchesFixedHash (f pre : String) (hashLen : Nat) (hashOk : Char → Bool)
    (suf : String) : Bool :=
  isPrefixChars pre.data f.data && isSuffixChars suf.data f.data &&
  (f.data.length == pre.data.length + hashLen + suf.data.length) &&
  ((f.data.drop pre.data.length).take hashLen).all hashOk

/-- A compiled CSS artefact name: one of
`components.styles.[a-f0-9]{8}.css`, `components.bundle.[a-z0-9]{6}.css`,
`component.bundle.[a-z0-9]{6}.css`. -/
def isCompiledCssFile (f : String) : Bool :=
  matchesFixedHash f "components.styles." 8 isLowerHexDigit ".css" ||
  matchesFixedHash f "components.bundle." 6 isLowerAlnum ".css" ||
  matchesFixedHash f "component.bundle." 6 isLowerAlnum ".css"

/-- A compiled JS artefact name in `clearCompileCache`'s filter:
starts with `components.` and ends with `.js`. -/
def isCompiledJsFile (f : String) : Bool :=
  isPrefixChars "components.".data f.data && isSuffixChars ".js".data f.data

/-- What one `clearCompileCache` call did. -/
structure ClearOutcome where
  result : Except String Unit
  fs : FsState
  builder : BuilderState
deriving Repr

/-- Embeds `clearCompileCache(options)`: the `cssOnly && jsOnly` guard throws before
the `try`; otherwise CSS artefacts are deleted unless `jsOnly`, JS artefacts
and the `components.manifest.json` manifest unless `cssOnly`, and the compile
flags (`hasCompiled`, `isCompiling`, the builder's debounce timer) are reset
only on a full clear (neither scope flag set). Filesystem errors inside the
`try` are caught and logged, never rethrown. -/
def clearCompileCache (opts : ClearOptions) (fs : FsState) (b : BuilderState) :
    ClearOutcome :=
  if opts.cssOnly && opts.jsOnly then
    { result := Except.error "cannot specify both cssOnly and jsOnly",
      fs := fs, builder := b }
  else
    { result := Except.ok (),
      fs :=
        { cssFiles :=
            if opts.jsOnly then fs.cssFiles
            else fs.cssFiles.filter (fun f => !isCompiledCssFile f),
          jsFiles :=
            if opts.cssOnly then fs.jsFiles
            else (fs.jsFiles.filter (fun f => !isCompiledJsFile f)).filter
              (fun f => f ≠ "components.manifest.json") },
      builder :=
        if opts.cssOnly = false ∧ opts.jsOnly = false then
          { b with hasCompiled := false, isCompiling := false,
                   builderDebounceTimer := false }
        else b }

/-! ### ServerModeHandler: file-change recording and the pre-generate drain -/

/-- The handler's mutable bookkeeping: the single pending-change slot
(`lastChangedFile`), whether the quiet-window debounce timer is armed
(`compileDebounceTimer`), and whether the watcher has been initialised. -/
structure HandlerState where
  lastChangedFile : Option ThemePath
  compileDebounceTimer : Bool
  watcherInitialized : Bool
deriving DecidableEq, Repr

/-- The early compiled-output filter at the top of `handleFileChange`:
substring (`includes`) tests on the theme-relative path. -/
def isCompiledFile (relativePath : String) : Bool :=
  containsSub relativePath "source/css/components." ||
  containsSub relativePath "source/css/component." ||
  containsSub relativePath "source/js/components." ||
  containsSub relativePath ".manifest.json" ||
  containsSub relativePath "node_modules" ||
  containsSub relativePath ".git"

/-- Embeds `handleFileChange(eventType, filePath)` (the event type only feeds the
log line): drop compiled-output files, drop paths matching a user ignore
pattern, drop `Skip`-strategy changes, drop everything while a compile is in
flight; otherwise overwrite the pending slot with this path and (re)arm the
300 ms quiet-window timer. -/
def handleFileChange (cfg : ThemeBuilderConfig) (isCompiling : Bool)
    (p : ThemePath) (s : HandlerState) : HandlerState :=
  if isCompiledFile p.relToTheme then s
  else if cfg.ignore.any (fun pattern => minimatchFn p.relToTheme pattern) then s
  else if determineCompileStrategy cfg p = CompileStrategy.skip then s
  else if isCompiling = true then s
  else { s with lastChangedFile := some p, compileDebounceTimer := true }

/-- Combined orchestrator state threaded through the pre-generate hook. -/
structure SysState where
  builder : BuilderState
  handler : HandlerState
  fs : FsState
deriving Repr

/-- What `executeCompileStrategy` did: pipeline invocations, result, and the
builder and filesystem state it left behind. -/
structure ExecOutcome where
  calls : List PipelineCall
  result : Except String Unit
  builder : BuilderState
  fs : FsState
deriving Repr

/-- Embeds `executeCompileStrategy(strategy, filePath)`: `Full` clears the whole
cache then runs `compileAssets` (the unscoped clear cannot take the
`cssOnly && jsOnly` throw, and filesystem errors are swallowed inside
`clearCompileCache`); `CssOnly`/`JsOnly` run the named entry point; `Skip`
does nothing. Errors thrown by the entry points are rethrown. -/
def executeCompileStrategy (strategy : CompileStrategy) (env : PipelineEnv)
    (inFlightFinal : BuilderState) (b : BuilderState) (fs : FsState) :
    ExecOutcome :=
  match strategy with
  | CompileStrategy.full =>
    let cleared := clearCompileCache { cssOnly := false, jsOnly := false } fs b
    let c := compileAssets cleared.builder env inFlightFinal
    { calls := c.calls, result := c.result.map (fun _ => ()),
      builder := c.state, fs := cleared.fs }
  | CompileStrategy.css_only =>
    let c := compileCSSOnly b env inFlightFinal
    { calls := c.calls, result := c.result.map (fun _ => ()),
      builder := c.state, fs := fs }
  | CompileStrategy.js_only =>
    let c := compileJSOnly b env inFlightFinal
    { calls := c.calls, result := c.result.map (fun _ => ()),
      builder := c.state, fs := fs }
  | CompileStrategy.skip =>
    { calls := [], result := Except.ok (), builder := b, fs := fs }

/-- What one run of the `before_generate` filter did: the pending change it
drained (the file slot and the strategy chosen for it), its pipeline call
trace, its result, and the state it left. -/
structure GenOutcome where
  drained : Option (Option ThemePath × CompileStrategy)
  calls : List PipelineCall
  result : Except String Unit
  sys : SysState
deriving Repr

/-- Step 3 of the filter (`initializeWatcher` when not yet initialised),
reached only when no error was thrown earlier in the callback. -/
def applyWatcherInit (o : GenOutcome) : GenOutcome :=
  match o.result with
  | Except.ok _ =>
    { o with sys :=
        { o.sys with handler := { o.sys.handler with watcherInitialized := true } } }
  | Except.error _ => o

/-- The `before_generate` filter: (1) if the debounce timer is armed, clear
it, compute the strategy for `lastChangedFile` (`Full` when the slot is
empty), execute it, and clear the slot in the `finally`; (2) else if nothing
has compiled and nothing is compiling, run an initial `compileAssets`;
(3) else no-op. Watcher initialisation happens afterwards unless an error was
rethrown. -/
def beforeGenerate (cfg : ThemeBuilderConfig) (env : PipelineEnv)
    (inFlightFinal : BuilderState) (sys : SysState) : GenOutcome :=
  applyWatcherInit (
    if sys.handler.compileDebounceTimer = true then
      let filePath := sys.handler.lastChangedFile
      let strategy :=
        match filePath with
        | some p => determineCompileStrategy cfg p
        | none => CompileStrategy.full
      let ex := executeCompileStrategy strategy env inFlightFinal sys.builder sys.fs
      let handler' :=
        { sys.handler with compileDebounceTimer := false, lastChangedFile := none }
      { drained := some (filePath, strategy), calls := ex.calls,
        result := ex.result,
        sys := { builder := ex.builder, handler := handler', fs := ex.fs } }
    else if sys.builder.hasCompiled = false ∧ sys.builder.isCompiling = false then
      let c := compileAssets sys.builder env inFlightFinal
      { drained := none, calls := c.calls,
        result := c.result.map (fun _ => ()),
        sys := { builder := c.state, handler := sys.handler, fs := sys.fs } }
    else
      { drained := none, calls := [], result := Except.ok (), sys := sys })

/-! ### Concrete fixtures -/

/-- A site with no `theme_builder` overrides: behaviour is the defaults. -/
def emptyUserConfig : ThemeBuilderConfig where
  compile_strategy := { css_only := [], js_only := [], full_compile := [], ignore := [] }
  watch := []
  ignore := []

/-- The user configuration of spec scenario 2: a `css_only` and an `ignore`
override. -/
def scenario2Config : ThemeBuilderConfig where
  compile_strategy :=
    { css_only := ["layout/**/*.css"], js_only := [], full_compile := [],
      ignore := ["source/css/components.*"] }
  watch := []
  ignore := []

/-- The user configuration of spec scenario 1: a `full_compile` override
`layout/components/**`. -/
def scenario1Config : ThemeBuilderConfig where
  compile_strategy :=
    { css_only := [], js_only := [], full_compile := ["layout/components/**"],
      ignore := [] }
  watch := []
  ignore := []

/-- Builder before any compile. -/
def idleBuilder : BuilderState where
  hasCompiled := false
  isCompiling := false
  builderDebounceTimer := false

/-- Builder after a successful compile. -/
def compiledBuilder : BuilderState where
  hasCompiled := true
  isCompiling := false
  builderDebounceTimer := false

/-- Builder observed in the middle of an in-flight compile. -/
def busyBuilder : BuilderState where
  hasCompiled := false
  isCompiling := true
  builderDebounceTimer := false

/-- Handler with an empty pending slot and no timer armed. -/
def emptyHandler : HandlerState where
  lastChangedFile := none
  compileDebounceTimer := false
  watcherInitialized := false

/-- No emitted artefacts on disk. -/
def emptyFs : FsState where
  cssFiles := []
  jsFiles := []

/-- Artefacts of a previous build, including the manifest. -/
def builtFs : FsState where
  cssFiles := ["components.styles.00aabbcc.css", "tailwind-input.css"]
  jsFiles := ["components.0.abcdef.js", "components.manifest.json", "loader.js"]

/-- Both pipelines succeed. -/
def envAllOk : PipelineEnv where
  themeDirExists := true
  cssResult := Except.ok (some "source/css/components.styles.00aabbcc.css")
  jsResult := Except.ok true

/-- The CSS pipeline resolves to `null`. -/
def envCssNull : PipelineEnv where
  themeDirExists := true
  cssResult := Except.ok none
  jsResult := Except.ok true

/-- The CSS pipeline throws. -/
def envCssThrow : PipelineEnv where
  themeDirExists := true
  cssResult := Except.error "css pipeline failed"
  jsResult := Except.ok true

/-- The CSS pipeline succeeds and the JS pipeline throws. -/
def envJsThrow : PipelineEnv where
  themeDirExists := true
  cssResult := Except.ok (some "source/css/components.styles.00aabbcc.css")
  jsResult := Except.error "js pipeline failed"

/-- The CSS pipeline succeeds and the JS pipeline resolves falsy. -/
def envJsFalsy : PipelineEnv where
  themeDirExists := true
  cssResult := Except.ok (some "source/css/components.styles.00aabbcc.css")
  jsResult := Except.ok false

/-- A component script: resolves to `js_only` under the defaults. -/
def jsComponentPath : ThemePath where
  relToTheme := "layout/components/a.js"
  relToHexo := "themes/goose/layout/components/a.js"

/-- The main Tailwind stylesheet: resolves to `css_only` under the defaults. -/
def tailwindCssPath : ThemePath where
  relToTheme := "layout/tailwind.css"
  relToHexo := "themes/goose/layout/tailwind.css"

/-- The component template of spec scenario 1. -/
def galleryEjsPath : ThemePath where
  relToTheme := "layout/components/gallery/gallery.ejs"
  relToHexo := "themes/goose/layout/components/gallery/gallery.ejs"

/-- A compiled CSS output artefact, the path of spec scenario 2. -/
def compiledCssOutputPath : ThemePath where
  relToTheme := "source/css/components.abc12345.css"
  relToHexo := "themes/goose/source/css/components.abc12345.css"

/-! ### Helper lemmas -/

theorem applyWatcherInit_drained (o : GenOutcome) :
    (applyWatcherInit o).drained = o.drained := by
  unfold applyWatcherInit
  split <;> rfl

theorem compileAssetsBody_releases (s : BuilderState) (env : PipelineEnv) :
    (compileAssetsBody s env).state.isCompiling = false := by
  unfold compileAssetsBody
  split
  · rfl
  · split <;> first | rfl | (split <;> rfl)

/-- C1 counterexample: with an idle builder and a CSS pipeline that resolves
to `null`, `compileAssets` completes with `hasCompiled = true` and returns
`true`; no error reaches the caller. -/
theorem compileAssets_cssNull_success :
    (compileAssets idleBuilder envCssNull idleBuilder).state.hasCompiled = true ∧
    (compileAssets idleBuilder envCssNull idleBuilder).result = Except.ok true := by
  exact ⟨rfl, rfl⟩

/-- C1 amended: a CSS `null` skips the JS pipeline but the Full compile still
succeeds with `hasCompiled = true`; only a thrown CSS error propagates to the
caller with `hasCompiled = false`. -/
theorem compileAssets_css_failure_modes (s : BuilderState) (env : PipelineEnv)
    (w : BuilderState) (hidle : s.isCompiling = false)
    (hdir : env.themeDirExists = true) :
    (env.cssResult = Except.ok none →
      (compileAssets s env w).calls = [PipelineCall.cssCompile] ∧
      (compileAssets s env w).result = Except.ok true ∧
      (compileAssets s env w).state.hasCompiled = true) ∧
    (∀ e, env.cssResult = Except.error e →
      (compileAssets s env w).result = Except.error e ∧
      (compileAssets s env w).state.hasCompiled = false ∧
      PipelineCall.jsBundle ∉ (compileAssets s env w).calls) := by
  constructor
  · intro hcss
    simp [compileAssets, compileAssetsBody, hidle, hdir, hcss]
  · intro e hcss
    simp [compileAssets, compileAssetsBody, hidle, hdir, hcss]

theorem compileAssets_css_failure_modes_witness :
    (compileAssets idleBuilder envCssNull idleBuilder).result = Except.ok true ∧
    (compileAssets idleBuilder envCssThrow idleBuilder).state.hasCompiled = false :=
  ⟨((compileAssets_css_failure_modes idleBuilder envCssNull idleBuilder rfl rfl).1 rfl).2.1,
   ((compileAssets_css_failure_modes idleBuilder envCssThrow idleBuilder rfl rfl).2
      "css pipeline failed" rfl).2.1⟩

/-- C2 counterexample: CSS succeeds and the JS pipeline throws; the error is
rethrown to the caller and `hasCompiled` is `false`. -/
theorem compileAssets_jsThrow_propagates :
    (compileAssets idleBuilder envJsThrow idleBuilder).result =
      Except.error "js pipeline failed" ∧
    (compileAssets idleBuilder envJsThrow idleBuilder).state.hasCompiled = false :=
  ⟨rfl, rfl⟩

/-- C2 amended: after a successful CSS compile the partial-success policy
applies to a JS pipeline that resolves falsy (warning only, `hasCompiled =
true`, `true` returned); a JS pipeline that throws propagates its error and
leaves `hasCompiled = false`. -/
theorem compileAssets_js_failure_modes (s : BuilderState) (env : PipelineEnv)
    (w : BuilderState) (outPath : String) (hidle : s.isCompiling = false)
    (hdir : env.themeDirExists = true)
    (hcss : env.cssResult = Except.ok (some outPath)) :
    (env.jsResult = Except.ok false →
      (compileAssets s env w).calls = [PipelineCall.cssCompile, PipelineCall.jsBundle] ∧
      (compileAssets s env w).result = Except.ok true ∧
      (compileAssets s env w).state.hasCompiled = true) ∧
    (∀ e, env.jsResult = Except.error e →
      (compileAssets s env w).result = Except.error e ∧
      (compileAssets s env w).state.hasCompiled = false) := by
  constructor
  · intro hjs
    simp [compileAssets, compileAssetsBody, hidle, hdir, hcss, hjs]
  · intro e hjs
    simp [compileAssets, compileAssetsBody, hidle, hdir, hcss, hjs]

theorem compileAssets_js_failure_modes_witness :
    (compileAssets idleBuilder envJsFalsy idleBuilder).result = Except.ok true ∧
    (compileAssets idleBuilder envJsThrow idleBuilder).result =
      Except.error "js pipeline failed" :=
  ⟨((compileAssets_js_failure_modes idleBuilder envJsFalsy idleBuilder
      "source/css/components.styles.00aabbcc.css" rfl rfl rfl).1 rfl).2.1,
   ((compileAssets_js_failure_modes idleBuilder envJsThrow idleBuilder
      "source/css/components.styles.00aabbcc.css" rfl rfl rfl).2
      "js pipeline failed" rfl).1⟩

/-- C3: while a compile is in flight (`isCompiling = true`), each of the
three entry points starts no pipeline run and returns the in-flight run's
final `hasCompiled`; the in-flight run itself releases the lock when done. -/
theorem compile_entry_points_mutual_exclusion (s mid : BuilderState)
    (env envMid : PipelineEnv) (w : BuilderState)
    (h0 : s.isCompiling = false) (hmid : mid.isCompiling = true) :
    (compileAssets s env w).state.isCompiling = false ∧
    ((compileAssets mid envMid (compileAssets s env w).state).calls = [] ∧
     (compileAssets mid envMid (compileAssets s env w).state).result =
       Except.ok (compileAssets s env w).state.hasCompiled) ∧
    ((compileCSSOnly mid envMid (compileAssets s env w).state).calls = [] ∧
     (compileCSSOnly mid envMid (compileAssets s env w).state).result =
       Except.ok (compileAssets s env w).state.hasCompiled) ∧
    ((compileJSOnly mid envMid (compileAssets s env w).state).calls = [] ∧
     (compileJSOnly mid envMid (compileAssets s env w).state).result =
       Except.ok (compileAssets s env w).state.hasCompiled) := by
  refine ⟨?_, ⟨?_, ?_⟩, ⟨?_, ?_⟩, ⟨?_, ?_⟩⟩ <;>
    simp [compileAssets, compileCSSOnly, compileJSOnly, h0, hmid,
          compileAssetsBody_releases]

theorem compile_entry_points_mutual_exclusion_witness :
    (compileAssets busyBuilder envAllOk
      (compileAssets idleBuilder envAllOk idleBuilder).state).calls = [] :=
  (compile_entry_points_mutual_exclusion idleBuilder busyBuilder envAllOk envAllOk
    idleBuilder rfl rfl).2.1.1

/-- C4: if the CSS pipeline resolves to `null` or throws, the JS pipeline is
never invoked during that `compileAssets` call. -/
theorem compileAssets_css_gate (s : BuilderState) (env : PipelineEnv)
    (w : BuilderState)
    (h : env.cssResult = Except.ok none ∨ ∃ e, env.cssResult = Except.error e) :
    PipelineCall.jsBundle ∉ (compileAssets s env w).calls := by
  unfold compileAssets compileAssetsBody
  rcases h with h | ⟨e, h⟩ <;> split <;> simp [h] <;> split <;> simp

theorem compileAssets_css_gate_witness :
    PipelineCall.jsBundle ∉ (compileAssets idleBuilder envCssNull idleBuilder).calls :=
  compileAssets_css_gate idleBuilder envCssNull idleBuilder (Or.inl rfl)

/-- C5: two qualifying (guard-passing, non-Skip) changes recorded in one
quiet window overwrite the single pending slot; the pre-generate drain
consumes the second path and the strategy resolved for it. -/
theorem debounce_last_write_wins (cfg : ThemeBuilderConfig) (pA pB : ThemePath)
    (s0 : HandlerState) (b : BuilderState) (fs : FsState) (env : PipelineEnv)
    (w : BuilderState)
    (hA1 : isCompiledFile pA.relToTheme = false)
    (hA2 : cfg.ignore.any (fun pattern => minimatchFn pA.relToTheme pattern) = false)
    (hA3 : determineCompileStrategy cfg pA ≠ CompileStrategy.skip)
    (hB1 : isCompiledFile pB.relToTheme = false)
    (hB2 : cfg.ignore.any (fun pattern => minimatchFn pB.relToTheme pattern) = false)
    (hB3 : determineCompileStrategy cfg pB ≠ CompileStrategy.skip) :
    (beforeGenerate cfg env w
      { builder := b,
        handler := handleFileChange cfg false pB (handleFileChange cfg false pA s0),
        fs := fs }).drained =
      some (some pB, determineCompileStrategy cfg pB) := by
  have hs2 : handleFileChange cfg false pB (handleFileChange cfg false pA s0) =
      { s0 with lastChangedFile := some pB, compileDebounceTimer := true } := by
    simp [handleFileChange, hA1, hA2, hA3, hB1, hB2, hB3]
  rw [hs2]
  unfold beforeGenerate
  rw [applyWatcherInit_drained]
  simp

theorem debounce_last_write_wins_witness :
    (beforeGenerate emptyUserConfig envAllOk idleBuilder
      { builder := idleBuilder,
        handler := handleFileChange emptyUserConfig false tailwindCssPath
          (handleFileChange emptyUserConfig false jsComponentPath emptyHandler),
        fs := emptyFs }).drained =
      some (some tailwindCssPath,
        determineCompileStrategy emptyUserConfig tailwindCssPath) :=
  debounce_last_write_wins emptyUserConfig jsComponentPath tailwindCssPath
    emptyHandler idleBuilder emptyFs envAllOk idleBuilder
    (by decide) (by decide) (by decide) (by decide) (by decide) (by decide)

/-- C6 counterexample: a change whose strategy is not `Skip` arrives while a
compile is in flight; `handleFileChange` drops it — no timer is armed and the
pending slot stays empty. -/
theorem recordChange_dropped_while_compiling :
    determineCompileStrategy emptyUserConfig tailwindCssPath ≠ CompileStrategy.skip ∧
    handleFileChange emptyUserConfig true tailwindCssPath emptyHandler = emptyHandler := by
  decide

/-- C6 amended: a `Skip`-strategy event leaves the state unchanged; a
non-`Skip` event (re)arms the quiet-window timer and overwrites the pending
slot, provided it passes the compiled-output filter and the user ignore
filter and no compile is in flight. -/
theorem recordChange_amended (cfg : ThemeBuilderConfig) (isC : Bool)
    (p : ThemePath) (s : HandlerState) :
    (determineCompileStrategy cfg p = CompileStrategy.skip →
      handleFileChange cfg isC p s = s) ∧
    (determineCompileStrategy cfg p ≠ CompileStrategy.skip →
      isCompiledFile p.relToTheme = false →
      cfg.ignore.any (fun pattern => minimatchFn p.relToTheme pattern) = false →
      isC = false →
      handleFileChange cfg isC p s =
        { s with lastChangedFile := some p, compileDebounceTimer := true }) := by
  constructor
  · intro h
    unfold handleFileChange
    by_cases h1 : isCompiledFile p.relToTheme = true <;>
      by_cases h2 :
          (cfg.ignore.any fun pattern => minimatchFn p.relToTheme pattern) = true <;>
        simp [h1, h2, h]
  · intro h1 h2 h3 h4
    simp [handleFileChange, h1, h2, h3, h4]

theorem recordChange_amended_witness :
    handleFileChange emptyUserConfig false tailwindCssPath emptyHandler =
      { emptyHandler with lastChangedFile := some tailwindCssPath,
                          compileDebounceTimer := true } :=
  (recordChange_amended emptyUserConfig false tailwindCssPath emptyHandler).2
    (by decide) (by decide) (by decide) rfl

/-- C7: the ignore list is checked first in `determineCompileStrategy`, so a
path matching any ignore pattern resolves to `Skip` whatever else it
matches. -/
theorem resolve_ignore_wins (cfg : ThemeBuilderConfig) (p : ThemePath)
    (h : matchesPatterns p (getCompileStrategyConfig cfg).ignore = true) :
    determineCompileStrategy cfg p = CompileStrategy.skip := by
  unfold determineCompileStrategy
  simp [h]

theorem resolve_ignore_wins_witness :
    matchesPatterns compiledCssOutputPath
      (getCompileStrategyConfig scenario2Config).ignore = true ∧
    determineCompileStrategy scenario2Config compiledCssOutputPath =
      CompileStrategy.skip :=
  ⟨by decide, resolve_ignore_wins scenario2Config compiledCssOutputPath (by decide)⟩

/-- C8 counterexample: with the merged configuration whose `full_compile`
list contains `layout/components/**`, the path
`layout/components/gallery/gallery.ejs` does not resolve to `Full`. -/
theorem resolve_gallery_not_full :
    determineCompileStrategy scenario1Config galleryEjsPath ≠ CompileStrategy.full := by
  decide

/-- C8 amended: that path resolves to `JsOnly`, because the default `js_only`
pattern `layout/components/**/*.ejs` is checked before the `full_compile`
list. -/
theorem resolve_gallery_js_only :
    determineCompileStrategy scenario1Config galleryEjsPath = CompileStrategy.js_only := by
  decide

/-- C9 counterexample: a CSS-scoped cache clear deletes the matching CSS
artefacts but leaves `hasCompiled` at `true` — only an unscoped clear resets
the compile state. -/
theorem clearCache_cssOnly_keeps_hasCompiled :
    (clearCompileCache { cssOnly := true, jsOnly := false } builtFs
      compiledBuilder).fs.cssFiles = ["tailwind-input.css"] ∧
    (clearCompileCache { cssOnly := true, jsOnly := false } builtFs
      compiledBuilder).builder.hasCompiled = true := by
  constructor
  · rfl
  · rfl

/-- C9 amended: `clearCompileCache` deletes the content-hashed artefacts and
the manifest according to its scope; it resets `hasCompiled` (with
`isCompiling` and the builder debounce timer) only on an unscoped clear —
scoped clears leave `hasCompiled` unchanged. -/
theorem clearCache_scoped_behaviour (opts : ClearOptions) (fs : FsState)
    (b : BuilderState) (h : ¬(opts.cssOnly = true ∧ opts.jsOnly = true)) :
    (clearCompileCache opts fs b).result = Except.ok () ∧
    (opts.jsOnly = false →
      ∀ f ∈ (clearCompileCache opts fs b).fs.cssFiles, isCompiledCssFile f = false) ∧
    (opts.cssOnly = false →
      (∀ f ∈ (clearCompileCache opts fs b).fs.jsFiles, isCompiledJsFile f = false) ∧
      "components.manifest.json" ∉ (clearCompileCache opts fs b).fs.jsFiles) ∧
    (clearCompileCache opts fs b).builder.hasCompiled =
      (if opts.cssOnly = false ∧ opts.jsOnly = false then false else b.hasCompiled) := by
  rcases opts with ⟨co, jo⟩
  cases co <;> cases jo <;>
    simp_all [clearCompileCache, List.mem_filter]

theorem clearCache_scoped_behaviour_witness :
    (clearCompileCache { cssOnly := false, jsOnly := false } builtFs
        compiledBuilder).builder.hasCompiled =
      (if ({ cssOnly := false, jsOnly := false } : ClearOptions).cssOnly = false ∧
          ({ cssOnly := false, jsOnly := false } : ClearOptions).jsOnly = false then
        false
      else compiledBuilder.hasCompiled) :=
  (clearCache_scoped_behaviour { cssOnly := false, jsOnly := false } builtFs
    compiledBuilder (by decide)).2.2.2

/-- C10: with no pending debounce timer and a prior successful compile, the
pre-generate hook is a no-op for the pipelines: both a first and an
immediately repeated run perform zero pipeline invocations and leave the
builder state unchanged. -/
theorem preGenerate_idempotent (cfg : ThemeBuilderConfig) (env env2 : PipelineEnv)
    (w w2 : BuilderState) (sys : SysState)
    (ht : sys.handler.compileDebounceTimer = false)
    (hc : sys.builder.hasCompiled = true) :
    (beforeGenerate cfg env w sys).calls = [] ∧
    (beforeGenerate cfg env2 w2 (beforeGenerate cfg env w sys).sys).calls = [] ∧
    (beforeGenerate cfg env2 w2 (beforeGenerate cfg env w sys).sys).sys.builder =
      sys.builder := by
  refine ⟨?_, ?_, ?_⟩ <;>
    simp [beforeGenerate, applyWatcherInit, ht, hc]

theorem preGenerate_idempotent_witness :
    (beforeGenerate emptyUserConfig envAllOk idleBuilder
      (beforeGenerate emptyUserConfig envAllOk idleBuilder
        { builder := compiledBuilder, handler := emptyHandler, fs := builtFs }).sys).calls = [] :=
  (preGenerate_idempotent emptyUserConfig envAllOk envAllOk idleBuilder idleBuilder
    { builder := compiledBuilder, handler := emptyHandler, fs := builtFs }
    rfl rfl).2.1

end GooseBuilder
